import Mathlib

/-!
Shallow embedding of the excelorm record-to-sheet marshalling engine
(Go package `excelorm`, file with `write` / `appendRow` /
`setNoDataSheetHeaders` / `coordinatesToCellName` / `columnNumberToName`).

Modelling conventions:
* Go `(string, error)` multiple returns become `String × Option String`;
  fallible functions that Go callers abort on become `Except String _`.
* `reflect` values of record fields become the inductive `FieldValue`;
  a whole record (a `SheetModel` interface value) becomes `SheetModel`
  with a `GoValue` payload (struct kind, pointer kind, or other kind).
* The excelize file container is modelled as `XFile`: the ordered list of
  sheet names (a fresh file starts with "Sheet1") plus the ordered list of
  `SetCellValue` writes.  `GetSheetIndex` returns the index or -1;
  container calls never fail in the model (the engine only checks the
  index and propagates errors that the model's container never produces).
* `strconv.FormatFloat` and `time.Time.Format` are external library
  functions whose output strings are irrelevant to the engine logic; the
  cell values they produce are kept symbolic as the `CellValue`
  constructors `cFloatStr` (payload, fmt byte, precision, bit size) and
  `cTimeStr` (instant, layout), which record exactly the arguments the
  engine forwards.  `strconv.FormatInt`/`FormatUint` (base 10) are
  modelled by `toString` on `Int`/`Nat`.
* Machine integers: Go `int` inputs of the coordinate translator are
  modelled as `Int` (the bounds checked are tiny, so overflow is not
  reachable); loop indices and row counters, which are always
  non-negative and small, are `Nat`.
* The Go `for num > 0` loop of `columnNumberToName` is modelled with an
  explicit fuel argument equal to the initial value, which strictly
  bounds the number of iterations (each iteration maps num to
  (num-1)/26 < num).
-/

namespace Excelorm

/-- A value written to a cell by `SetCellValue`.  `cFloatStr p fmt prec bits`
stands for the string `strconv.FormatFloat(p, fmt, prec, bits)` and
`cTimeStr t layout` for the string `t.Format(layout)`, both kept symbolic. -/
inductive CellValue where
  | cInt : Int → CellValue
  | cUint : Nat → CellValue
  | cString : String → CellValue
  | cBool : Bool → CellValue
  | cFloatStr : Nat → Nat → Int → Nat → CellValue
  | cTimeStr : Nat → String → CellValue
  deriving DecidableEq

/-- The runtime value of one record field, as seen by the `reflect`-driven
dispatch in `appendRow`.  `ptrV v` is a non-nil pointer whose pointee is
`v`; `ptrNilV` is a nil pointer.  `float32V`/`float64V`/`timeV` carry the
numeric payload symbolically.  `structOtherV name` is a struct-kind value
that is not `time.Time` (hits the `unsupported type %T` default case);
`badKindV name` is a map/slice/array/chan/func/interface/complex/uintptr
kind (hits the `unsupported type %s` case). -/
inductive FieldValue where
  | intV : Int → FieldValue
  | uintV : Nat → FieldValue
  | stringV : String → FieldValue
  | boolV : Bool → FieldValue
  | float32V : Nat → FieldValue
  | float64V : Nat → FieldValue
  | timeV : Nat → FieldValue
  | structOtherV : String → FieldValue
  | ptrV : FieldValue → FieldValue
  | ptrNilV : FieldValue
  | badKindV : String → FieldValue
  deriving DecidableEq

/-- One declared struct field: its name, its `excel_header` tag (Go's
`Tag.Get` yields `""` when the tag is absent) and its runtime value. -/
structure GoField where
  name : String
  tag : String
  value : FieldValue
  deriving DecidableEq

/-- The shape of a record as `reflect.TypeOf(...).Kind()` sees it:
a struct with fields, a pointer (non-nil with pointee, or nil), or some
other kind (string/int/slice/... masquerading as a record). -/
inductive GoValue where
  | structV : List GoField → GoValue
  | ptrV : GoValue → GoValue
  | ptrNil : GoValue
  | otherKind : String → GoValue
  deriving DecidableEq

/-- A record handed to the engine: the result of its `SheetName()` method
plus its introspectable value. -/
structure SheetModel where
  sheetName : String
  value : GoValue
  deriving DecidableEq

/-- The excelize file: sheet names in creation order (a new file holds
"Sheet1") and the ordered log of cell writes (sheet, cell address, value). -/
structure XFile where
  sheets : List String
  cells : List (String × String × CellValue)
  deriving DecidableEq

/-- `excelize.NewFile()`: one default sheet "Sheet1", no cells. -/
def XFile.new : XFile := ⟨["Sheet1"], []⟩

/-- Index of a sheet name in the ordered sheet list, or -1 when absent
(`GetSheetIndex` semantics). -/
def sheetIdx : List String → String → Int
  | [], _ => -1
  | x :: xs, s =>
      if x = s then 0
      else
        let r := sheetIdx xs s
        if r = -1 then -1 else r + 1

/-- `f.GetSheetIndex(name)` (the model's container never errors). -/
def XFile.getSheetIndex (f : XFile) (s : String) : Int := sheetIdx f.sheets s

/-- `f.NewSheet(name)`: appends the sheet (callers only invoke it after
checking the index is -1). -/
def XFile.newSheet (f : XFile) (s : String) : XFile :=
  ⟨f.sheets ++ [s], f.cells⟩

/-- `f.SetCellValue(sheet, cell, v)`: logs the write. -/
def XFile.setCell (f : XFile) (s cell : String) (v : CellValue) : XFile :=
  ⟨f.sheets, f.cells ++ [(s, cell, v)]⟩

/-- `f.DeleteSheet(name)`: removes the sheet from the list. -/
def XFile.deleteSheet (f : XFile) (s : String) : XFile :=
  ⟨f.sheets.filter (fun x => !(x == s)), f.cells⟩

/-- The last value written to a given cell of a given sheet, if any. -/
def XFile.cellGet (f : XFile) (s cell : String) : Option CellValue :=
  (f.cells.reverse.find? (fun c => c.1 == s && c.2.1 == cell)).map (fun c => c.2.2)

/-- The base-26 letter codes of a positive column number, matching the Go
loop `for num > 0 { col = string(rune((num-1)%26+65)) + col; num = (num-1)/26 }`.
`fuel` bounds the iteration count; callers pass `fuel = num`, which always
suffices because `(num-1)/26 < num` for `num ≥ 1`. -/
def colCharsFuel : Nat → Nat → List Char
  | _, 0 => []
  | 0, _ + 1 => []
  | fuel + 1, n + 1 => colCharsFuel fuel (n / 26) ++ [Char.ofNat (n % 26 + 65)]

/-- The decimal digit characters of a positive number (the loop underlying
`strconv.Itoa`); same fuel discipline as `colCharsFuel`. -/
def decCharsFuel : Nat → Nat → List Char
  | _, 0 => []
  | 0, _ + 1 => []
  | fuel + 1, n + 1 => decCharsFuel fuel ((n + 1) / 10) ++ [Char.ofNat ((n + 1) % 10 + 48)]

/-- `strconv.Itoa` on a non-negative value. -/
def itoa (n : Nat) : String :=
  if n = 0 then "0" else String.mk (decCharsFuel n n)

/-- `columnNumberToName`: rejects columns outside 1..16384, otherwise
produces the base-26 letter name. -/
def columnNumberToName (num : Int) : String × Option String :=
  if num < 1 ∨ num > 16384 then
    ("", some "the column number must be greater than or equal to 1 and less than or equal to 16384")
  else
    (String.mk (colCharsFuel num.toNat num.toNat), none)

/-- `coordinatesToCellName`: checks `col < 1 || row < 1`, then
`row > 1048576`, then returns `colName + strconv.Itoa(row)` together with
`columnNumberToName`'s error (note: the row digits are appended even when
the column conversion failed, exactly as in the source). -/
def coordinatesToCellName (col row : Int) : String × Option String :=
  if col < 1 ∨ row < 1 then ("", some "invalid cell reference")
  else if row > 1048576 then ("", some "row number exceeds maximum limit")
  else
    let cn := columnNumberToName col
    (cn.1 ++ itoa row.toNat, cn.2)

/-- The resolved configuration (`options` struct).  `floatFmt` is the
format byte (`'f'` = 102); `trueValue`/`falseValue` model the two
`*string` fields (`none` = nil). -/
structure Options where
  timeFormatLayout : String
  floatPrecision : Int
  floatFmt : Nat
  ifNullValue : String
  sheetHeaders : List SheetModel
  trueValue : Option String
  falseValue : Option String
  integerAsString : Bool
  headless : Bool
  deriving DecidableEq

/-- An override directive (`type Option func(*options)` in the source;
renamed because `Option` is taken in Lean). -/
def OptionFn : Type := Options → Options

def WithTimeFormatLayout (layout : String) : OptionFn :=
  fun o => { o with timeFormatLayout := layout }

def WithFloatPrecision (precision : Int) : OptionFn :=
  fun o => { o with floatPrecision := precision }

def WithFloatFmt (fmt : Nat) : OptionFn :=
  fun o => { o with floatFmt := fmt }

def WithIfNullValue (value : String) : OptionFn :=
  fun o => { o with ifNullValue := value }

def WithSheetHeaders (headers : List SheetModel) : OptionFn :=
  fun o => { o with sheetHeaders := headers }

def WithBoolValueAs (trueValue falseValue : String) : OptionFn :=
  fun o => { o with trueValue := some trueValue, falseValue := some falseValue }

def WithIntegerAsString : OptionFn :=
  fun o => { o with integerAsString := true }

def WithHeadless : OptionFn :=
  fun o => { o with headless := true }

/-- The default `options` literal built at the top of `write`; the fields
the Go literal leaves out are their zero values (nil slice, nil pointers,
false booleans). -/
def defaultOptions : Options :=
  { timeFormatLayout := "2006-01-02 15:04:05"
    floatPrecision := 2
    floatFmt := 102
    ifNullValue := ""
    sheetHeaders := []
    trueValue := none
    falseValue := none
    integerAsString := false
    headless := false }

/-- `write`'s option application loop: start from the defaults, apply the
override functions in order. -/
def applyOptions (opts : List OptionFn) : Options :=
  opts.foldl (fun o g => g o) defaultOptions

/-- The per-field value dispatch of `appendRow` (the `switch fieldKind`
with the `goto unAddrTo` pointer unwrap and the inner type switch).
Returns the cell value to write, or the error that aborts the row. -/
def convertField (o : Options) : FieldValue → Except String CellValue
  | .ptrNilV => .ok (.cString o.ifNullValue)
  | .ptrV v => convertField o v
  | .intV n =>
      if o.integerAsString then .ok (.cString (toString n)) else .ok (.cInt n)
  | .uintV n =>
      if o.integerAsString then .ok (.cString (toString n)) else .ok (.cUint n)
  | .stringV s => .ok (.cString s)
  | .boolV b =>
      match b, o.trueValue, o.falseValue with
      | true, some t, _ => .ok (.cString t)
      | false, _, some fv => .ok (.cString fv)
      | _, _, _ => .ok (.cBool b)
  | .float32V p => .ok (.cFloatStr p o.floatFmt o.floatPrecision 32)
  | .float64V p => .ok (.cFloatStr p o.floatFmt o.floatPrecision 64)
  | .timeV t => .ok (.cTimeStr t o.timeFormatLayout)
  | .structOtherV tyName => .error ("unsupported type " ++ tyName)
  | .badKindV kindName => .error ("unsupported type " ++ kindName)

/-- Header text of a field in `appendRow`'s header loop: the
`excel_header` tag unless absent, else the field name.  (No treatment of
"-" here — that exists only in `setNoDataSheetHeaders`.) -/
def headerText (fd : GoField) : String :=
  if fd.tag = "" then fd.name else fd.tag

/-- The header-writing loop of `appendRow` (`line == 1 && !headless`
branch): field `i` writes its header at column `i+1`, row 1. -/
def appendHeaderLoop (s : String) (i : Nat) (fs : List GoField) (f : XFile) : Except String XFile :=
  match fs with
  | [] => .ok f
  | fd :: rest =>
      match coordinatesToCellName ((i + 1 : Nat) : Int) ((1 : Nat) : Int) with
      | (_, some e) => .error e
      | (cell, none) =>
          appendHeaderLoop s (i + 1) rest (f.setCell s cell (.cString (headerText fd)))

/-- The data-writing loop of `appendRow`: field `i` writes its converted
value at column `i+1`, row `line`. -/
def appendDataLoop (o : Options) (s : String) (line : Nat) (i : Nat) (fs : List GoField)
    (f : XFile) : Except String XFile :=
  match fs with
  | [] => .ok f
  | fd :: rest =>
      match coordinatesToCellName ((i + 1 : Nat) : Int) ((line : Nat) : Int) with
      | (_, some e) => .error e
      | (cell, none) =>
          match convertField o fd.value with
          | .error e => .error e
          | .ok v => appendDataLoop o s line (i + 1) rest (f.setCell s cell v)

/-- The one-step pointer dereference performed on the record itself in
`appendRow` and `setNoDataSheetHeaders`: a nil pointer aborts, a non-nil
pointer is replaced by its pointee, anything else passes through. -/
def derefModel : GoValue → Except String GoValue
  | .ptrV v => .ok v
  | .ptrNil => .error "nil reference row append is not allowed"
  | v => .ok v

/-- The tail of `appendRow` after sheet creation and dereference:
`line++`; when the incremented line is 1 and headers are on, write the
header row and bump the line again; then write the data row. -/
def appendRowRest (o : Options) (s : String) (fields : List GoField) (line0 : Nat)
    (f : XFile) : Except String XFile :=
  if line0 + 1 = 1 ∧ o.headless = false then
    match appendHeaderLoop s 0 fields f with
    | .error e => .error e
    | .ok f1 => appendDataLoop o s (line0 + 2) 0 fields f1
  else
    appendDataLoop o s (line0 + 1) 0 fields f

/-- `appendRow(f, sheetModel, line, options)`.  Creates the sheet when
absent, dereferences a pointer record once (nil aborts), then requires a
struct (Go would panic in `NumField` otherwise; the model returns an
error, a case unreachable from `write`). -/
def appendRow (f : XFile) (m : SheetModel) (line : Nat) (o : Options) : Except String XFile :=
  let s := m.sheetName
  let f1 := if XFile.getSheetIndex f s = -1 then f.newSheet s else f
  match derefModel m.value with
  | .error e => .error e
  | .ok (.structV fields) => appendRowRest o s fields line f1
  | .ok _ => .error "reflect: NumField of non-struct value"

/-- The header loop of `setNoDataSheetHeaders`: like `appendHeaderLoop`
but a field whose tag is exactly "-" is skipped (`continue`) — note the
column index still advances, so later fields keep their columns. -/
def noDataHeaderLoop (s : String) (i : Nat) (fs : List GoField) (f : XFile) : Except String XFile :=
  match fs with
  | [] => .ok f
  | fd :: rest =>
      if fd.tag = "-" then noDataHeaderLoop s (i + 1) rest f
      else
        match coordinatesToCellName ((i + 1 : Nat) : Int) ((1 : Nat) : Int) with
        | (_, some e) => .error e
        | (cell, none) =>
            noDataHeaderLoop s (i + 1) rest (f.setCell s cell (.cString (headerText fd)))

/-- The per-prototype loop of `setNoDataSheetHeaders`: existing sheets are
skipped; otherwise the sheet is created, the prototype dereferenced once,
and its header row written with the skip rule. -/
def setNoDataSheetHeadersLoop (f : XFile) : List SheetModel → Except String XFile
  | [] => .ok f
  | model :: rest =>
      if XFile.getSheetIndex f model.sheetName ≠ -1 then
        setNoDataSheetHeadersLoop f rest
      else
        let f1 := f.newSheet model.sheetName
        match derefModel model.value with
        | .error e => .error e
        | .ok (.structV fields) =>
            match noDataHeaderLoop model.sheetName 0 fields f1 with
            | .error e => .error e
            | .ok f2 => setNoDataSheetHeadersLoop f2 rest
        | .ok _ => .error "reflect: NumField of non-struct value"

/-- `setNoDataSheetHeaders(f, options)`. -/
def setNoDataSheetHeaders (f : XFile) (o : Options) : Except String XFile :=
  setNoDataSheetHeadersLoop f o.sheetHeaders

/-- The two counter increments after a record is appended:
`sheetLinesCount[name]++`, and once more when the pre-read count was 0 and
headers are on. -/
def bumpCounter (o : Options) (cnt : String → Nat) (k : String) (l : Nat) : String → Nat :=
  let c1 := fun s => if s = k then cnt s + 1 else cnt s
  if l = 0 ∧ o.headless = false then (fun s => if s = k then c1 s + 1 else c1 s) else c1

/-- The record loop of `write`: nil records abort, empty sheet names
abort, only struct-kind records are accepted, and the per-sheet line
counter drives `appendRow`. -/
def writeLoop (o : Options) : List (Option SheetModel) → XFile → (String → Nat) →
    Except String (XFile × (String → Nat))
  | [], f, cnt => .ok (f, cnt)
  | none :: _, _, _ => .error "nil reference row append is not allowed"
  | some sm :: rest, f, cnt =>
      if sm.sheetName = "" then .error "sheetModel must have a sheet name"
      else
        match sm.value with
        | .structV _ =>
            match appendRow f sm (cnt sm.sheetName) o with
            | .error e => .error e
            | .ok f1 => writeLoop o rest f1 (bumpCounter o cnt sm.sheetName (cnt sm.sheetName))
        | _ => .error "sheetModel must be struct"

/-- `write(sheetModels, opts...)`: resolve options, run the record loop on
a fresh file with an empty counter, emit headers for the declared no-data
prototypes, and delete the default "Sheet1" unless some record or
prototype uses that name.  (`WriteExcelSaveAs` and
`WriteExcelAsBytesBuffer` both just serialise the returned file.) -/
def write (models : List (Option SheetModel)) (opts : List OptionFn) : Except String XFile :=
  let o := applyOptions opts
  match writeLoop o models XFile.new (fun _ => 0) with
  | .error e => .error e
  | .ok (f, _) =>
      match setNoDataSheetHeaders f o with
      | .error e => .error e
      | .ok f1 =>
          let contains :=
            (models.any (fun m =>
              match m with
              | some sm => sm.sheetName == "Sheet1"
              | none => false))
            || o.sheetHeaders.any (fun sm => sm.sheetName == "Sheet1")
          if contains then .ok f1 else .ok (f1.deleteSheet "Sheet1")

/-- The counter value for sheet `s` after running the record loop
(specification helper used to state counter claims). -/
def runCounterAt (models : List (Option SheetModel)) (opts : List OptionFn)
    (s : String) : Except String Nat :=
  match writeLoop (applyOptions opts) models XFile.new (fun _ => 0) with
  | .error e => .error e
  | .ok (_, cnt) => .ok (cnt s)

/-- The in-domain cell address: column letters then decimal row. -/
def cellRef (c r : Nat) : String :=
  String.mk (colCharsFuel c c) ++ itoa r

/-- Numeric value of a column letter list (left fold, 1-based base 26);
inverse of `colCharsFuel` used for the injectivity proof. -/
def colVal (l : List Char) : Nat :=
  l.foldl (fun a c => a * 26 + (c.toNat - 64)) 0

/-- Numeric value of a decimal digit list; inverse of `decCharsFuel`. -/
def decVal (l : List Char) : Nat :=
  l.foldl (fun a c => a * 10 + (c.toNat - 48)) 0

/-- Expected cells of `appendHeaderLoop`: every field (no skip), header
text at column index+1, row 1. -/
def appendHeaderCells (s : String) (i : Nat) : List GoField → List (String × String × CellValue)
  | [] => []
  | fd :: rest => (s, cellRef (i + 1) 1, .cString (headerText fd)) :: appendHeaderCells s (i + 1) rest

/-- Expected cells of `noDataHeaderLoop`: tag-"-" fields contribute no
cell but still advance the column index. -/
def noDataHeaderCells (s : String) (i : Nat) : List GoField → List (String × String × CellValue)
  | [] => []
  | fd :: rest =>
      if fd.tag = "-" then noDataHeaderCells s (i + 1) rest
      else (s, cellRef (i + 1) 1, .cString (headerText fd)) :: noDataHeaderCells s (i + 1) rest

/-- Expected cells of `appendDataLoop`, or `none` when some field's
conversion fails. -/
def dataCellsOpt (o : Options) (s : String) (line : Nat) (i : Nat) :
    List GoField → Option (List (String × String × CellValue))
  | [] => some []
  | fd :: rest =>
      match convertField o fd.value with
      | .error _ => none
      | .ok v =>
          (dataCellsOpt o s line (i + 1) rest).map
            (fun cs => (s, cellRef (i + 1) line, v) :: cs)

/-- Decidable equality of `Except` results, so that concrete runs of the
engine can be evaluated inside proofs. -/
instance {ε α : Type} [DecidableEq ε] [DecidableEq α] : DecidableEq (Except ε α) := fun x y =>
  match x, y with
  | .error a, .error b =>
      if h : a = b then isTrue (h ▸ rfl) else isFalse (fun hc => h (Except.error.inj hc))
  | .ok a, .ok b =>
      if h : a = b then isTrue (h ▸ rfl) else isFalse (fun hc => h (Except.ok.inj hc))
  | .error _, .ok _ => isFalse (fun hc => Except.noConfusion hc)
  | .ok _, .error _ => isFalse (fun hc => Except.noConfusion hc)

theorem letter_toNat (k : Nat) (h : k < 26) : (Char.ofNat (k + 65)).toNat = k + 65 := by
  interval_cases k <;> decide

theorem digit_toNat (k : Nat) (h : k < 10) : (Char.ofNat (k + 48)).toNat = k + 48 := by
  interval_cases k <;> decide

theorem colVal_append (l : List Char) (c : Char) :
    colVal (l ++ [c]) = colVal l * 26 + (c.toNat - 64) := by
  simp [colVal, List.foldl_append]

theorem decVal_append (l : List Char) (c : Char) :
    decVal (l ++ [c]) = decVal l * 10 + (c.toNat - 48) := by
  simp [decVal, List.foldl_append]

theorem colVal_colCharsFuel : ∀ (fuel n : Nat), n ≤ fuel → colVal (colCharsFuel fuel n) = n := by
  intro fuel
  induction fuel with
  | zero =>
      intro n h
      have : n = 0 := by omega
      subst this
      simp [colCharsFuel, colVal]
  | succ f ih =>
      intro n h
      cases n with
      | zero => simp [colCharsFuel, colVal]
      | succ k =>
          have hstep : colCharsFuel (f + 1) (k + 1)
              = colCharsFuel f (k / 26) ++ [Char.ofNat (k % 26 + 65)] := rfl
          rw [hstep, colVal_append]
          have hdiv : k / 26 ≤ f := by
            have := Nat.div_le_self k 26
            omega
          rw [ih (k / 26) hdiv, letter_toNat (k % 26) (Nat.mod_lt k (by norm_num))]
          have := Nat.div_add_mod k 26
          omega

theorem decVal_decCharsFuel : ∀ (fuel n : Nat), n ≤ fuel → decVal (decCharsFuel fuel n) = n := by
  intro fuel
  induction fuel with
  | zero =>
      intro n h
      have : n = 0 := by omega
      subst this
      simp [decCharsFuel, decVal]
  | succ f ih =>
      intro n h
      cases n with
      | zero => simp [decCharsFuel, decVal]
      | succ k =>
          have hstep : decCharsFuel (f + 1) (k + 1)
              = decCharsFuel f ((k + 1) / 10) ++ [Char.ofNat ((k + 1) % 10 + 48)] := rfl
          rw [hstep, decVal_append]
          have hdiv : (k + 1) / 10 ≤ f := by
            have := Nat.div_lt_self (show 0 < k + 1 by omega) (show 1 < 10 by norm_num)
            omega
          rw [ih ((k + 1) / 10) hdiv, digit_toNat ((k + 1) % 10) (Nat.mod_lt (k + 1) (by norm_num))]
          have := Nat.div_add_mod (k + 1) 10
          omega

theorem colCharsFuel_letters : ∀ (fuel n : Nat), ∀ c ∈ colCharsFuel fuel n,
    65 ≤ c.toNat ∧ c.toNat ≤ 90 := by
  intro fuel
  induction fuel with
  | zero => intro n c hc; cases n <;> simp [colCharsFuel] at hc
  | succ f ih =>
      intro n c hc
      cases n with
      | zero => simp [colCharsFuel] at hc
      | succ k =>
          have hstep : colCharsFuel (f + 1) (k + 1)
              = colCharsFuel f (k / 26) ++ [Char.ofNat (k % 26 + 65)] := rfl
          rw [hstep, List.mem_append] at hc
          rcases hc with h | h
          · exact ih _ c h
          · rw [List.mem_singleton] at h
            subst h
            rw [letter_toNat (k % 26) (Nat.mod_lt k (by norm_num))]
            have := Nat.mod_lt k (show 0 < 26 by norm_num)
            omega

theorem decCharsFuel_digits : ∀ (fuel n : Nat), ∀ c ∈ decCharsFuel fuel n,
    48 ≤ c.toNat ∧ c.toNat ≤ 57 := by
  intro fuel
  induction fuel with
  | zero => intro n c hc; cases n <;> simp [decCharsFuel] at hc
  | succ f ih =>
      intro n c hc
      cases n with
      | zero => simp [decCharsFuel] at hc
      | succ k =>
          have hstep : decCharsFuel (f + 1) (k + 1)
              = decCharsFuel f ((k + 1) / 10) ++ [Char.ofNat ((k + 1) % 10 + 48)] := rfl
          rw [hstep, List.mem_append] at hc
          rcases hc with h | h
          · exact ih _ c h
          · rw [List.mem_singleton] at h
            subst h
            rw [digit_toNat ((k + 1) % 10) (Nat.mod_lt (k + 1) (by norm_num))]
            have := Nat.mod_lt (k + 1) (show 0 < 10 by norm_num)
            omega

theorem decCharsFuel_ne_nil (n : Nat) (h : 1 ≤ n) : decCharsFuel n n ≠ [] := by
  cases n with
  | zero => omega
  | succ k =>
      have hstep : decCharsFuel (k + 1) (k + 1)
          = decCharsFuel k ((k + 1) / 10) ++ [Char.ofNat ((k + 1) % 10 + 48)] := rfl
      rw [hstep]
      simp

theorem itoa_ne_empty (n : Nat) : itoa n ≠ "" := by
  unfold itoa
  by_cases h : n = 0
  · rw [if_pos h]; decide
  · rw [if_neg h]
    intro hc
    have := congrArg String.data hc
    have hm : (String.mk (decCharsFuel n n)).data = decCharsFuel n n := rfl
    rw [hm] at this
    exact decCharsFuel_ne_nil n (by omega) (by simpa using this)

theorem append_split_unique : ∀ (l1 l3 l2 l4 : List Char),
    l1 ++ l2 = l3 ++ l4 →
    (∀ c ∈ l1, 65 ≤ c.toNat) → (∀ c ∈ l3, 65 ≤ c.toNat) →
    (∀ c ∈ l2, c.toNat < 65) → (∀ c ∈ l4, c.toNat < 65) →
    l2 ≠ [] → l4 ≠ [] → l1 = l3 ∧ l2 = l4 := by
  intro l1
  induction l1 with
  | nil =>
      intro l3 l2 l4 h h1 h3 h2 h4 hn2 hn4
      cases l3 with
      | nil => exact ⟨rfl, h⟩
      | cons b bs =>
          simp only [List.nil_append, List.cons_append] at h
          have hb2 : b ∈ l2 := by rw [h]; exact List.mem_cons_self b _
          have := h2 b hb2
          have := h3 b (List.mem_cons_self b bs)
          omega
  | cons a as ih =>
      intro l3 l2 l4 h h1 h3 h2 h4 hn2 hn4
      cases l3 with
      | nil =>
          simp only [List.cons_append, List.nil_append] at h
          have ha4 : a ∈ l4 := by rw [← h]; exact List.mem_cons_self a _
          have := h4 a ha4
          have := h1 a (List.mem_cons_self a as)
          omega
      | cons b bs =>
          simp only [List.cons_append] at h
          have hab : a = b := by exact (List.cons.injEq a _ b _).mp h |>.1
          have htail : as ++ l2 = bs ++ l4 := (List.cons.injEq a _ b _).mp h |>.2
          have := ih bs l2 l4 htail
            (fun c hc => h1 c (List.mem_cons_of_mem a hc))
            (fun c hc => h3 c (List.mem_cons_of_mem b hc))
            h2 h4 hn2 hn4
          exact ⟨by rw [hab, this.1], this.2⟩

theorem cellRef_inj (c1 r1 c2 r2 : Nat) (hr1 : 1 ≤ r1) (hr2 : 1 ≤ r2) (h : cellRef c1 r1 = cellRef c2 r2) : c1 = c2 ∧ r1 = r2 := by
  unfold cellRef itoa at h
  rw [if_neg (by omega : ¬ r1 = 0), if_neg (by omega : ¬ r2 = 0)] at h
  have hd := congrArg String.data h
  rw [String.data_append, String.data_append] at hd
  have hm : ∀ l : List Char, (String.mk l).data = l := fun _ => rfl
  rw [hm, hm, hm, hm] at hd
  have hsplit := append_split_unique _ _ _ _ hd
    (fun c hc => (colCharsFuel_letters c1 c1 c hc).1)
    (fun c hc => (colCharsFuel_letters c2 c2 c hc).1)
    (fun c hc => by have := decCharsFuel_digits r1 r1 c hc; omega)
    (fun c hc => by have := decCharsFuel_digits r2 r2 c hc; omega)
    (decCharsFuel_ne_nil r1 hr1) (decCharsFuel_ne_nil r2 hr2)
  constructor
  · have e1 := colVal_colCharsFuel c1 c1 le_rfl
    have e2 := colVal_colCharsFuel c2 c2 le_rfl
    rw [← e1, ← e2, hsplit.1]
  · have e1 := decVal_decCharsFuel r1 r1 le_rfl
    have e2 := decVal_decCharsFuel r2 r2 le_rfl
    rw [← e1, ← e2, hsplit.2]

theorem coordinatesToCellName_inDomain (c r : Nat) (hc1 : 1 ≤ c) (hc2 : c ≤ 16384)
    (hr1 : 1 ≤ r) (hr2 : r ≤ 1048576) :
    coordinatesToCellName ((c : Nat) : Int) ((r : Nat) : Int) = (cellRef c r, none) := by
  unfold coordinatesToCellName columnNumberToName
  rw [if_neg (by omega : ¬ ((c : Int) < 1 ∨ (r : Int) < 1)),
      if_neg (by omega : ¬ (r : Int) > 1048576),
      if_neg (by omega : ¬ ((c : Int) < 1 ∨ (c : Int) > 16384))]
  have h1 : ((c : Int)).toNat = c := Int.toNat_natCast c
  have h2 : ((r : Int)).toNat = r := Int.toNat_natCast r
  rw [h1, h2]
  rfl

theorem appendHeaderLoop_ok : ∀ (fs : List GoField) (s : String) (i : Nat) (f : XFile),
    i + fs.length ≤ 16384 →
    appendHeaderLoop s i fs f = .ok ⟨f.sheets, f.cells ++ appendHeaderCells s i fs⟩ := by
  intro fs
  induction fs with
  | nil =>
      intro s i f h
      simp [appendHeaderLoop, appendHeaderCells]
  | cons fd rest ih =>
      intro s i f h
      simp only [List.length_cons] at h
      rw [show appendHeaderLoop s i (fd :: rest) f =
          (match coordinatesToCellName ((i + 1 : Nat) : Int) ((1 : Nat) : Int) with
           | (_, some e) => .error e
           | (cell, none) =>
               appendHeaderLoop s (i + 1) rest (f.setCell s cell (.cString (headerText fd))))
          from rfl]
      rw [coordinatesToCellName_inDomain (i + 1) 1 (by omega) (by omega) (by omega) (by omega)]
      show appendHeaderLoop s (i + 1) rest
          (f.setCell s (cellRef (i + 1) 1) (.cString (headerText fd)))
        = .ok ⟨f.sheets, f.cells ++ appendHeaderCells s i (fd :: rest)⟩
      rw [ih s (i + 1) _ (by omega)]
      simp [XFile.setCell, appendHeaderCells]

theorem noDataHeaderLoop_ok : ∀ (fs : List GoField) (s : String) (i : Nat) (f : XFile),
    i + fs.length ≤ 16384 →
    noDataHeaderLoop s i fs f = .ok ⟨f.sheets, f.cells ++ noDataHeaderCells s i fs⟩ := by
  intro fs
  induction fs with
  | nil =>
      intro s i f h
      simp [noDataHeaderLoop, noDataHeaderCells]
  | cons fd rest ih =>
      intro s i f h
      simp only [List.length_cons] at h
      by_cases htag : fd.tag = "-"
      · rw [show noDataHeaderLoop s i (fd :: rest) f =
            (if fd.tag = "-" then noDataHeaderLoop s (i + 1) rest f
             else
               match coordinatesToCellName ((i + 1 : Nat) : Int) ((1 : Nat) : Int) with
               | (_, some e) => .error e
               | (cell, none) =>
                   noDataHeaderLoop s (i + 1) rest (f.setCell s cell (.cString (headerText fd))))
            from rfl]
        rw [if_pos htag, ih s (i + 1) f (by omega)]
        rw [show noDataHeaderCells s i (fd :: rest) = noDataHeaderCells s (i + 1) rest from by
          rw [noDataHeaderCells, if_pos htag]]
      · rw [show noDataHeaderLoop s i (fd :: rest) f =
            (if fd.tag = "-" then noDataHeaderLoop s (i + 1) rest f
             else
               match coordinatesToCellName ((i + 1 : Nat) : Int) ((1 : Nat) : Int) with
               | (_, some e) => .error e
               | (cell, none) =>
                   noDataHeaderLoop s (i + 1) rest (f.setCell s cell (.cString (headerText fd))))
            from rfl]
        rw [if_neg htag]
        rw [coordinatesToCellName_inDomain (i + 1) 1 (by omega) (by omega) (by omega) (by omega)]
        show noDataHeaderLoop s (i + 1) rest
            (f.setCell s (cellRef (i + 1) 1) (.cString (headerText fd)))
          = .ok ⟨f.sheets, f.cells ++ noDataHeaderCells s i (fd :: rest)⟩
        rw [ih s (i + 1) _ (by omega)]
        rw [show noDataHeaderCells s i (fd :: rest)
            = (s, cellRef (i + 1) 1, .cString (headerText fd)) :: noDataHeaderCells s (i + 1) rest from by
          rw [noDataHeaderCells, if_neg htag]]
        simp [XFile.setCell]

theorem appendDataLoop_ok : ∀ (fs : List GoField) (o : Options) (s : String) (line i : Nat)
    (f : XFile) (cs : List (String × String × CellValue)),
    i + fs.length ≤ 16384 → 1 ≤ line → line ≤ 1048576 →
    dataCellsOpt o s line i fs = some cs →
    appendDataLoop o s line i fs f = .ok ⟨f.sheets, f.cells ++ cs⟩ := by
  intro fs
  induction fs with
  | nil =>
      intro o s line i f cs h1 h2 h3 hcs
      simp only [dataCellsOpt, Option.some.injEq] at hcs
      subst hcs
      simp [appendDataLoop]
  | cons fd rest ih =>
      intro o s line i f cs h1 h2 h3 hcs
      simp only [List.length_cons] at h1
      cases hconv : convertField o fd.value with
      | error e =>
          rw [show dataCellsOpt o s line i (fd :: rest) =
              (match convertField o fd.value with
               | .error _ => none
               | .ok v =>
                   (dataCellsOpt o s line (i + 1) rest).map
                     (fun cs => (s, cellRef (i + 1) line, v) :: cs))
              from rfl, hconv] at hcs
          simp at hcs
      | ok v =>
          rw [show dataCellsOpt o s line i (fd :: rest) =
              (match convertField o fd.value with
               | .error _ => none
               | .ok v =>
                   (dataCellsOpt o s line (i + 1) rest).map
                     (fun cs => (s, cellRef (i + 1) line, v) :: cs))
              from rfl, hconv] at hcs
          cases hrest : dataCellsOpt o s line (i + 1) rest with
          | none => rw [hrest] at hcs; simp at hcs
          | some cs' =>
              rw [hrest] at hcs
              simp only [Option.map_some', Option.some.injEq] at hcs
              subst hcs
              rw [show appendDataLoop o s line i (fd :: rest) f =
                  (match coordinatesToCellName ((i + 1 : Nat) : Int) ((line : Nat) : Int) with
                   | (_, some e) => .error e
                   | (cell, none) =>
                       match convertField o fd.value with
                       | .error e => .error e
                       | .ok v => appendDataLoop o s line (i + 1) rest (f.setCell s cell v))
                  from rfl]
              rw [coordinatesToCellName_inDomain (i + 1) line (by omega) (by omega) h2 h3]
              show (match convertField o fd.value with
                    | .error e => Except.error e
                    | .ok v => appendDataLoop o s line (i + 1) rest
                        (f.setCell s (cellRef (i + 1) line) v))
                  = .ok ⟨f.sheets, f.cells ++ ((s, cellRef (i + 1) line, v) :: cs')⟩
              rw [hconv]
              show appendDataLoop o s line (i + 1) rest (f.setCell s (cellRef (i + 1) line) v)
                  = .ok ⟨f.sheets, f.cells ++ ((s, cellRef (i + 1) line, v) :: cs')⟩
              rw [ih o s line (i + 1) _ cs' (by omega) h2 h3 hrest]
              simp [XFile.setCell]

theorem appendRowRest_first_header (o : Options) (s : String) (fields : List GoField)
    (f : XFile) (cs : List (String × String × CellValue))
    (hh : o.headless = false) (hlen : fields.length ≤ 16384)
    (hcs : dataCellsOpt o s 2 0 fields = some cs) :
    appendRowRest o s fields 0 f =
      .ok ⟨f.sheets, (f.cells ++ appendHeaderCells s 0 fields) ++ cs⟩ := by
  unfold appendRowRest
  rw [if_pos ⟨rfl, hh⟩]
  rw [appendHeaderLoop_ok fields s 0 f (by omega)]
  show appendDataLoop o s 2 0 fields ⟨f.sheets, f.cells ++ appendHeaderCells s 0 fields⟩
      = .ok ⟨f.sheets, (f.cells ++ appendHeaderCells s 0 fields) ++ cs⟩
  exact appendDataLoop_ok fields o s 2 0 _ cs (by omega) (by omega) (by omega) hcs

theorem appendRowRest_later (o : Options) (s : String) (fields : List GoField)
    (l : Nat) (f : XFile) (cs : List (String × String × CellValue))
    (hnf : ¬ (l + 1 = 1 ∧ o.headless = false)) (hlen : fields.length ≤ 16384)
    (hrow : l + 1 ≤ 1048576)
    (hcs : dataCellsOpt o s (l + 1) 0 fields = some cs) :
    appendRowRest o s fields l f = .ok ⟨f.sheets, f.cells ++ cs⟩ := by
  unfold appendRowRest
  rw [if_neg hnf]
  exact appendDataLoop_ok fields o s (l + 1) 0 f cs (by omega) (by omega) hrow hcs

theorem bumpCounter_eq (o : Options) (cnt : String → Nat) (k : String) :
    bumpCounter o cnt k (cnt k) = fun s =>
      if s = k then
        (if cnt k = 0 ∧ o.headless = false then cnt k + 2 else cnt k + 1)
      else cnt s := by
  funext s
  unfold bumpCounter
  by_cases h0 : cnt k = 0 ∧ o.headless = false
  · rw [if_pos h0]
    by_cases hs : s = k <;> simp [hs, h0]
  · rw [if_neg h0]
    by_cases hs : s = k <;> simp [hs, h0]

theorem writeLoop_cons_struct (o : Options) (sm : SheetModel) (fields : List GoField)
    (rest : List (Option SheetModel)) (f f1 : XFile) (cnt : String → Nat)
    (hval : sm.value = .structV fields) (hname : ¬ sm.sheetName = "")
    (happ : appendRow f sm (cnt sm.sheetName) o = .ok f1) :
    writeLoop o (some sm :: rest) f cnt =
      writeLoop o rest f1 (fun s =>
        if s = sm.sheetName then
          (if cnt sm.sheetName = 0 ∧ o.headless = false
           then cnt sm.sheetName + 2 else cnt sm.sheetName + 1)
        else cnt s) := by
  rw [show writeLoop o (some sm :: rest) f cnt =
      (if sm.sheetName = "" then .error "sheetModel must have a sheet name"
       else
         match sm.value with
         | .structV _ =>
             match appendRow f sm (cnt sm.sheetName) o with
             | .error e => .error e
             | .ok f1 => writeLoop o rest f1 (bumpCounter o cnt sm.sheetName (cnt sm.sheetName))
         | _ => .error "sheetModel must be struct")
      from rfl]
  rw [if_neg hname, hval]
  show (match appendRow f sm (cnt sm.sheetName) o with
        | .error e => Except.error e
        | .ok f1 => writeLoop o rest f1 (bumpCounter o cnt sm.sheetName (cnt sm.sheetName)))
      = _
  rw [happ]
  show writeLoop o rest f1 (bumpCounter o cnt sm.sheetName (cnt sm.sheetName)) = _
  rw [bumpCounter_eq]

theorem writeLoop_all_structs : ∀ (models : List (Option SheetModel)) (o : Options)
    (f : XFile) (cnt : String → Nat) (p : XFile × (String → Nat)),
    writeLoop o models f cnt = .ok p →
    ∀ m ∈ models, ∃ sm fields, m = some sm ∧ sm.value = GoValue.structV fields := by
  intro models
  induction models with
  | nil => intro o f cnt p h m hm; simp at hm
  | cons m0 rest ih =>
      intro o f cnt p h m hm
      cases m0 with
      | none =>
          rw [show writeLoop o (none :: rest) f cnt
              = .error "nil reference row append is not allowed" from rfl] at h
          exact absurd h (by simp)
      | some sm =>
          rw [show writeLoop o (some sm :: rest) f cnt =
              (if sm.sheetName = "" then .error "sheetModel must have a sheet name"
               else
                 match sm.value with
                 | .structV _ =>
                     match appendRow f sm (cnt sm.sheetName) o with
                     | .error e => .error e
                     | .ok f1 =>
                         writeLoop o rest f1 (bumpCounter o cnt sm.sheetName (cnt sm.sheetName))
                 | _ => .error "sheetModel must be struct")
              from rfl] at h
          by_cases hname : sm.sheetName = ""
          · rw [if_pos hname] at h; exact absurd h (by simp)
          · rw [if_neg hname] at h
            cases hval : sm.value with
            | structV fields =>
                rw [hval] at h
                rcases List.mem_cons.mp hm with rfl | hm'
                · exact ⟨sm, fields, rfl, hval⟩
                · cases happ : appendRow f sm (cnt sm.sheetName) o with
                  | error e =>
                      rw [happ] at h
                      exact absurd h (by simp)
                  | ok f1 =>
                      rw [happ] at h
                      exact ih o f1 _ p h m hm'
            | ptrV v => rw [hval] at h; exact absurd h (by simp)
            | ptrNil => rw [hval] at h; exact absurd h (by simp)
            | otherKind k => rw [hval] at h; exact absurd h (by simp)

theorem sheetIdx_fresh_miss (name : String) (h : ¬ name = "Sheet1") :
    sheetIdx ["Sheet1"] name = -1 := by
  unfold sheetIdx
  rw [if_neg (fun he => h he.symm)]
  rfl

theorem setNoDataSheetHeadersLoop_single (f : XFile) (proto : SheetModel)
    (fields : List GoField) (hval : proto.value = .structV fields)
    (hmiss : sheetIdx f.sheets proto.sheetName = -1) (hlen : fields.length ≤ 16384) :
    setNoDataSheetHeadersLoop f [proto] =
      .ok ⟨f.sheets ++ [proto.sheetName], f.cells ++ noDataHeaderCells proto.sheetName 0 fields⟩ := by
  rw [show setNoDataSheetHeadersLoop f [proto] =
      (if XFile.getSheetIndex f proto.sheetName ≠ -1 then setNoDataSheetHeadersLoop f []
       else
         match derefModel proto.value with
         | .error e => .error e
         | .ok (.structV fields) =>
             match noDataHeaderLoop proto.sheetName 0 fields (f.newSheet proto.sheetName) with
             | .error e => .error e
             | .ok f2 => setNoDataSheetHeadersLoop f2 []
         | .ok _ => .error "reflect: NumField of non-struct value")
      from rfl]
  rw [if_neg (show ¬ (XFile.getSheetIndex f proto.sheetName ≠ -1) from fun hne => hne hmiss)]
  rw [hval]
  show (match noDataHeaderLoop proto.sheetName 0 fields (f.newSheet proto.sheetName) with
        | .error e => Except.error e
        | .ok f2 => setNoDataSheetHeadersLoop f2 []) = _
  rw [noDataHeaderLoop_ok fields proto.sheetName 0 (f.newSheet proto.sheetName) (by omega)]
  rfl

theorem write_headers_only (proto : SheetModel) (fields : List GoField)
    (hval : proto.value = .structV fields) (hname : ¬ proto.sheetName = "Sheet1")
    (hlen : fields.length ≤ 16384) :
    write [] [WithSheetHeaders [proto]] =
      .ok ⟨[proto.sheetName], noDataHeaderCells proto.sheetName 0 fields⟩ := by
  have hA := setNoDataSheetHeadersLoop_single XFile.new proto fields hval
    (sheetIdx_fresh_miss proto.sheetName hname) hlen
  show (match setNoDataSheetHeadersLoop XFile.new [proto] with
        | .error e => Except.error e
        | .ok f1 =>
            if ((List.any [] (fun (m : Option SheetModel) =>
                  match m with
                  | some sm => sm.sheetName == "Sheet1"
                  | none => false))
                || List.any [proto] (fun sm => sm.sheetName == "Sheet1")) = true
            then Except.ok f1 else Except.ok (f1.deleteSheet "Sheet1")) = _
  rw [hA]
  show (if ((proto.sheetName == "Sheet1") || false) = true
        then Except.ok (⟨["Sheet1", proto.sheetName],
              noDataHeaderCells proto.sheetName 0 fields⟩ : XFile)
        else Except.ok ((⟨["Sheet1", proto.sheetName],
              noDataHeaderCells proto.sheetName 0 fields⟩ : XFile).deleteSheet "Sheet1")) = _
  rw [Bool.or_false, if_neg (by simp [hname])]
  show Except.ok (XFile.deleteSheet ⟨["Sheet1", proto.sheetName],
        noDataHeaderCells proto.sheetName 0 fields⟩ "Sheet1") = _
  unfold XFile.deleteSheet
  simp [List.filter, beq_eq_false_iff_ne.mpr hname]

theorem write_headers_only_headless (proto : SheetModel) (fields : List GoField)
    (hval : proto.value = .structV fields) (hname : ¬ proto.sheetName = "Sheet1")
    (hlen : fields.length ≤ 16384) :
    write [] [WithHeadless, WithSheetHeaders [proto]] =
      .ok ⟨[proto.sheetName], noDataHeaderCells proto.sheetName 0 fields⟩ := by
  have hA := setNoDataSheetHeadersLoop_single XFile.new proto fields hval
    (sheetIdx_fresh_miss proto.sheetName hname) hlen
  show (match setNoDataSheetHeadersLoop XFile.new [proto] with
        | .error e => Except.error e
        | .ok f1 =>
            if ((List.any [] (fun (m : Option SheetModel) =>
                  match m with
                  | some sm => sm.sheetName == "Sheet1"
                  | none => false))
                || List.any [proto] (fun sm => sm.sheetName == "Sheet1")) = true
            then Except.ok f1 else Except.ok (f1.deleteSheet "Sheet1")) = _
  rw [hA]
  show (if ((proto.sheetName == "Sheet1") || false) = true
        then Except.ok (⟨["Sheet1", proto.sheetName],
              noDataHeaderCells proto.sheetName 0 fields⟩ : XFile)
        else Except.ok ((⟨["Sheet1", proto.sheetName],
              noDataHeaderCells proto.sheetName 0 fields⟩ : XFile).deleteSheet "Sheet1")) = _
  rw [Bool.or_false, if_neg (by simp [hname])]
  show Except.ok (XFile.deleteSheet ⟨["Sheet1", proto.sheetName],
        noDataHeaderCells proto.sheetName 0 fields⟩ "Sheet1") = _
  unfold XFile.deleteSheet
  simp [List.filter, beq_eq_false_iff_ne.mpr hname]

theorem write_headers_only_sheet1 (proto : SheetModel) (hname : proto.sheetName = "Sheet1") :
    write [] [WithSheetHeaders [proto]] = .ok ⟨["Sheet1"], []⟩ := by
  have hskip : setNoDataSheetHeadersLoop XFile.new [proto] = .ok XFile.new := by
    rw [show setNoDataSheetHeadersLoop XFile.new [proto] =
        (if XFile.getSheetIndex XFile.new proto.sheetName ≠ -1
         then setNoDataSheetHeadersLoop XFile.new []
         else
           match derefModel proto.value with
           | .error e => .error e
           | .ok (.structV fields) =>
               match noDataHeaderLoop proto.sheetName 0 fields
                   (XFile.new.newSheet proto.sheetName) with
               | .error e => .error e
               | .ok f2 => setNoDataSheetHeadersLoop f2 []
           | .ok _ => .error "reflect: NumField of non-struct value")
        from rfl]
    rw [if_pos (show XFile.getSheetIndex XFile.new proto.sheetName ≠ -1 by
      rw [show XFile.getSheetIndex XFile.new proto.sheetName
          = sheetIdx ["Sheet1"] proto.sheetName from rfl, hname]
      decide)]
    rfl
  show (match setNoDataSheetHeadersLoop XFile.new [proto] with
        | .error e => Except.error e
        | .ok f1 =>
            if ((List.any [] (fun (m : Option SheetModel) =>
                  match m with
                  | some sm => sm.sheetName == "Sheet1"
                  | none => false))
                || List.any [proto] (fun sm => sm.sheetName == "Sheet1")) = true
            then Except.ok f1 else Except.ok (f1.deleteSheet "Sheet1")) = _
  rw [hskip]
  show (if ((proto.sheetName == "Sheet1") || false) = true
        then Except.ok XFile.new else Except.ok (XFile.new.deleteSheet "Sheet1")) = _
  rw [Bool.or_false, if_pos (by simp [hname])]
  rfl

/-- Claim C1, corrected.  In the source, only `setNoDataSheetHeaders` skips a
field whose `excel_header` override is the sentinel "-", and even there the
skipped field still occupies its column slot, so later fields' columns do not
shift; `appendRow`'s header loop writes "-" literally as the header text and
its data loop writes the field's value normally.  The first two conjuncts
characterise the two header loops of the source; the remaining conjuncts
evaluate the divergent treatments of a "-"-tagged field. -/
theorem claim_C1 : ∀ (s : String) (i : Nat) (fs : List GoField) (f : XFile),
    (i + fs.length ≤ 16384 →
      appendHeaderLoop s i fs f = .ok ⟨f.sheets, f.cells ++ appendHeaderCells s i fs⟩)
    ∧ (i + fs.length ≤ 16384 →
      noDataHeaderLoop s i fs f = .ok ⟨f.sheets, f.cells ++ noDataHeaderCells s i fs⟩)
    ∧ (∀ fd : GoField, fd.tag = "-" → headerText fd = "-")
    ∧ appendHeaderCells "s" 0 [⟨"A", "-", .stringV "x"⟩] = [("s", "A1", .cString "-")]
    ∧ noDataHeaderCells "s" 0 [⟨"A", "-", .stringV "x"⟩, ⟨"B", "h", .stringV "y"⟩]
        = [("s", "B1", .cString "h")] := by
  intro s i fs f
  refine ⟨appendHeaderLoop_ok fs s i f, noDataHeaderLoop_ok fs s i f,
    ?_, by decide, by decide⟩
  intro fd h
  simp [headerText, h]

/-- Claim C1 counterexample: a record with a "-"-tagged first field marshalled
through `write` gets the header text "-" written at A1 and its value written
at A2 — the field is not omitted from either the header row or the data row. -/
theorem claim_C1_counterexample :
    write [some ⟨"s", .structV [⟨"A", "-", .stringV "x"⟩, ⟨"B", "h", .stringV "y"⟩]⟩] [] =
      .ok ⟨["s"], [("s", "A1", .cString "-"), ("s", "B1", .cString "h"),
                   ("s", "A2", .cString "x"), ("s", "B2", .cString "y")]⟩
    ∧ XFile.cellGet ⟨["s"], [("s", "A1", .cString "-"), ("s", "B1", .cString "h"),
                   ("s", "A2", .cString "x"), ("s", "B2", .cString "y")]⟩ "s" "A1"
        = some (.cString "-")
    ∧ XFile.cellGet ⟨["s"], [("s", "A1", .cString "-"), ("s", "B1", .cString "h"),
                   ("s", "A2", .cString "x"), ("s", "B2", .cString "y")]⟩ "s" "A2"
        = some (.cString "x") := by
  refine ⟨by decide, by decide, by decide⟩

/-- Claim C1 witness: the header-loop characterisation evaluated on a concrete
"-"-tagged field. -/
theorem claim_C1_witness :
    appendHeaderLoop "s" 0 [⟨"A", "-", .stringV "x"⟩] ⟨[], []⟩
      = .ok ⟨[], [("s", "A1", .cString "-")]⟩ := by
  have h := (claim_C1 "s" 0 [⟨"A", "-", .stringV "x"⟩] ⟨[], []⟩).1 (by decide)
  rw [h]
  decide

/-- Claim C2, corrected.  A declared-header prototype for a sheet that is not
already present in the container (any identifier other than the default
"Sheet1") yields, in a run with no data records, that sheet containing exactly
its header row and no data rows.  A prototype whose identifier is "Sheet1" is
skipped by the no-data header pass, because the default sheet already exists:
Sheet1 stays present but entirely empty, with no header row. -/
theorem claim_C2 : ∀ (proto : SheetModel) (fields : List GoField),
    (proto.value = .structV fields → ¬ proto.sheetName = "Sheet1" → fields.length ≤ 16384 →
      write [] [WithSheetHeaders [proto]] =
        .ok ⟨[proto.sheetName], noDataHeaderCells proto.sheetName 0 fields⟩)
    ∧ (proto.sheetName = "Sheet1" →
      write [] [WithSheetHeaders [proto]] = .ok ⟨["Sheet1"], []⟩) :=
  fun proto fields =>
    ⟨fun hval hname hlen => write_headers_only proto fields hval hname hlen,
     fun hname => write_headers_only_sheet1 proto hname⟩

/-- Claim C2 counterexample: a declared-header prototype named "Sheet1" with
zero data records leaves the sheet present with no cells at all — in
particular no header cell at A1 — contradicting the claim for that name. -/
theorem claim_C2_counterexample :
    write [] [WithSheetHeaders [⟨"Sheet1", .structV [⟨"F", "h", .stringV ""⟩]⟩]] =
      .ok ⟨["Sheet1"], []⟩
    ∧ XFile.cellGet ⟨["Sheet1"], []⟩ "Sheet1" "A1" = none := by
  refine ⟨by decide, by decide⟩

/-- Claim C2 witness: the non-"Sheet1" branch evaluated on a concrete
prototype. -/
theorem claim_C2_witness :
    write [] [WithSheetHeaders [⟨"p", .structV [⟨"F", "h", .stringV ""⟩]⟩]] =
      .ok ⟨["p"], noDataHeaderCells "p" 0 [⟨"F", "h", .stringV ""⟩]⟩ :=
  (claim_C2 ⟨"p", .structV [⟨"F", "h", .stringV ""⟩]⟩ [⟨"F", "h", .stringV ""⟩]).1
    rfl (by decide) (by decide)

/-- Claim C3, corrected.  Processing one record bumps that sheet's counter by
2 only when the pre-read count is 0 and headers are not suppressed, otherwise
by 1 (so not "regardless of other configuration"); the data row of a sheet's
first record with headers lands at row 2 = counter + 2 (row 1 being the
header), and every other data row lands at row counter + 1. -/
theorem claim_C3 :
    (∀ (o : Options) (sm : SheetModel) (fields : List GoField)
       (rest : List (Option SheetModel)) (f f1 : XFile) (cnt : String → Nat),
       sm.value = .structV fields → ¬ sm.sheetName = "" →
       appendRow f sm (cnt sm.sheetName) o = .ok f1 →
       writeLoop o (some sm :: rest) f cnt =
         writeLoop o rest f1 (fun s =>
           if s = sm.sheetName then
             (if cnt sm.sheetName = 0 ∧ o.headless = false
              then cnt sm.sheetName + 2 else cnt sm.sheetName + 1)
           else cnt s))
    ∧ (∀ (o : Options) (s : String) (fields : List GoField) (f : XFile)
         (cs : List (String × String × CellValue)),
        o.headless = false → fields.length ≤ 16384 → dataCellsOpt o s 2 0 fields = some cs →
        appendRowRest o s fields 0 f =
          .ok ⟨f.sheets, (f.cells ++ appendHeaderCells s 0 fields) ++ cs⟩)
    ∧ (∀ (o : Options) (s : String) (fields : List GoField) (l : Nat) (f : XFile)
         (cs : List (String × String × CellValue)),
        ¬ (l + 1 = 1 ∧ o.headless = false) → fields.length ≤ 16384 → l + 1 ≤ 1048576 →
        dataCellsOpt o s (l + 1) 0 fields = some cs →
        appendRowRest o s fields l f = .ok ⟨f.sheets, f.cells ++ cs⟩) :=
  ⟨fun o sm fields rest f f1 cnt hval hname happ =>
      writeLoop_cons_struct o sm fields rest f f1 cnt hval hname happ,
   fun o s fields f cs hh hlen hcs =>
      appendRowRest_first_header o s fields f cs hh hlen hcs,
   fun o s fields l f cs hnf hlen hrow hcs =>
      appendRowRest_later o s fields l f cs hnf hlen hrow hcs⟩

/-- Claim C3 counterexample: with `WithHeadless` the first record increments
the counter once (1, not 2); and with headers on, the first record's data
lands at A2 although its pre-read counter was 0 (the claim's formula
counter + 1 would put it at row 1, which instead holds the header). -/
theorem claim_C3_counterexample :
    runCounterAt [some ⟨"s", .structV [⟨"A", "", .stringV "x"⟩]⟩] [WithHeadless] "s" = .ok 1
    ∧ ¬ runCounterAt [some ⟨"s", .structV [⟨"A", "", .stringV "x"⟩]⟩] [WithHeadless] "s" = .ok 2
    ∧ write [some ⟨"s", .structV [⟨"A", "", .stringV "x"⟩]⟩] [] =
        .ok ⟨["s"], [("s", "A1", .cString "A"), ("s", "A2", .cString "x")]⟩
    ∧ ¬ XFile.cellGet ⟨["s"], [("s", "A1", .cString "A"), ("s", "A2", .cString "x")]⟩ "s" "A1"
        = some (.cString "x")
    ∧ XFile.cellGet ⟨["s"], [("s", "A1", .cString "A"), ("s", "A2", .cString "x")]⟩ "s" "A2"
        = some (.cString "x") := by
  refine ⟨by decide, by decide, by decide, by decide, by decide⟩

/-- Claim C3 witness: the counter-step equation evaluated on a concrete
record with the default configuration. -/
theorem claim_C3_witness :
    writeLoop defaultOptions [some ⟨"s", .structV [⟨"A", "", .stringV "x"⟩]⟩]
        XFile.new (fun _ => 0)
      = writeLoop defaultOptions []
          ⟨["Sheet1", "s"], [("s", "A1", .cString "A"), ("s", "A2", .cString "x")]⟩
          (fun s => if s = "s" then
              (if (0 : Nat) = 0 ∧ defaultOptions.headless = false then 0 + 2 else 0 + 1)
            else 0) :=
  claim_C3.1 defaultOptions ⟨"s", .structV [⟨"A", "", .stringV "x"⟩]⟩
    [⟨"A", "", .stringV "x"⟩] [] XFile.new
    ⟨["Sheet1", "s"], [("s", "A1", .cString "A"), ("s", "A2", .cString "x")]⟩
    (fun _ => 0) rfl (by decide) (by decide)

/-- Claim C4, confirmed.  Coordinate translation maps (1,1) to "A1", (27,1)
to "AA1", succeeds on (16384,1048576), fails on (16385,1) and (1,1048577),
produces base-26 letters followed by the decimal row digits on the whole
domain, and is injective on in-domain pairs. -/
theorem claim_C4 :
    coordinatesToCellName 1 1 = ("A1", none)
    ∧ coordinatesToCellName 27 1 = ("AA1", none)
    ∧ (coordinatesToCellName 16384 1048576).2 = none
    ∧ (coordinatesToCellName 16385 1).2 ≠ none
    ∧ (coordinatesToCellName 1 1048577).2 ≠ none
    ∧ columnNumberToName 1 = ("A", none)
    ∧ columnNumberToName 26 = ("Z", none)
    ∧ columnNumberToName 27 = ("AA", none)
    ∧ (∀ (c r : Int), 1 ≤ c → c ≤ 16384 → 1 ≤ r → r ≤ 1048576 →
        coordinatesToCellName c r = (cellRef c.toNat r.toNat, none))
    ∧ (∀ (c1 r1 c2 r2 : Int), 1 ≤ c1 → c1 ≤ 16384 → 1 ≤ r1 → r1 ≤ 1048576 →
        1 ≤ c2 → c2 ≤ 16384 → 1 ≤ r2 → r2 ≤ 1048576 →
        coordinatesToCellName c1 r1 = coordinatesToCellName c2 r2 → c1 = c2 ∧ r1 = r2) := by
  have hdom : ∀ (c r : Int), 1 ≤ c → c ≤ 16384 → 1 ≤ r → r ≤ 1048576 →
      coordinatesToCellName c r = (cellRef c.toNat r.toNat, none) := by
    intro c r h1 h2 h3 h4
    have hc : ((c.toNat : Nat) : Int) = c := Int.toNat_of_nonneg (by omega)
    have hr : ((r.toNat : Nat) : Int) = r := Int.toNat_of_nonneg (by omega)
    rw [← hc, ← hr]
    rw [coordinatesToCellName_inDomain c.toNat r.toNat (by omega) (by omega) (by omega) (by omega)]
    rw [Int.toNat_natCast, Int.toNat_natCast]
  refine ⟨by decide, by decide, by decide, by decide, by decide,
    by decide, by decide, by decide, hdom, ?_⟩
  intro c1 r1 c2 r2 h1 h2 h3 h4 h5 h6 h7 h8 heq
  rw [hdom c1 r1 h1 h2 h3 h4, hdom c2 r2 h5 h6 h7 h8] at heq
  have hfst : cellRef c1.toNat r1.toNat = cellRef c2.toNat r2.toNat :=
    congrArg Prod.fst heq
  have hij := cellRef_inj c1.toNat r1.toNat c2.toNat r2.toNat (by omega) (by omega) hfst
  constructor
  · omega
  · omega

/-- Claim C4 witness: injectivity applied at the concrete pair (27,1). -/
theorem claim_C4_witness : (27 : Int) = 27 ∧ (1 : Int) = 1 :=
  claim_C4.2.2.2.2.2.2.2.2.2 27 1 27 1 (by decide) (by decide) (by decide) (by decide)
    (by decide) (by decide) (by decide) (by decide) rfl

/-- Claim C5, corrected.  For column < 1, row < 1, or row > 1048576 the
string returned alongside the error is empty; but for column > 16384 with an
in-range row, `coordinatesToCellName` returns the decimal row digits — a
non-empty partial address — together with the column error. -/
theorem claim_C5 : ∀ (c r : Int),
    ((c < 1 ∨ r < 1) → coordinatesToCellName c r = ("", some "invalid cell reference"))
    ∧ (1 ≤ c → 1 ≤ r → r > 1048576 →
        coordinatesToCellName c r = ("", some "row number exceeds maximum limit"))
    ∧ (c > 16384 → 1 ≤ r → r ≤ 1048576 →
        coordinatesToCellName c r =
          (itoa r.toNat,
           some "the column number must be greater than or equal to 1 and less than or equal to 16384")
        ∧ itoa r.toNat ≠ "") := by
  intro c r
  refine ⟨?_, ?_, ?_⟩
  · intro h
    unfold coordinatesToCellName
    rw [if_pos h]
  · intro h1 h2 h3
    unfold coordinatesToCellName
    rw [if_neg (by omega), if_pos h3]
  · intro h1 h2 h3
    refine ⟨?_, itoa_ne_empty r.toNat⟩
    unfold coordinatesToCellName columnNumberToName
    rw [if_neg (by omega), if_neg (by omega), if_pos (by omega : c < 1 ∨ c > 16384)]
    rfl

/-- Claim C5 counterexample: translate(16385, 1) fails but returns the
non-empty partial address "1" (the row digits without a column name). -/
theorem claim_C5_counterexample :
    (coordinatesToCellName 16385 1).1 = "1" ∧ (coordinatesToCellName 16385 1).2 ≠ none := by
  refine ⟨by decide, by decide⟩

/-- Claim C5 witness: the out-of-range-column case evaluated at (16385, 1). -/
theorem claim_C5_witness :
    coordinatesToCellName 16385 1 =
      (itoa (1 : Int).toNat,
       some "the column number must be greater than or equal to 1 and less than or equal to 16384")
    ∧ itoa (1 : Int).toNat ≠ "" :=
  (claim_C5 16385 1).2.2 (by decide) (by decide) (by decide)

/-- Claim C6, confirmed.  A nil pointer field renders the configured
null-display text (default empty, "-" when configured via `WithIfNullValue`);
a present pointer is unwrapped exactly once and re-dispatched through the same
conversion, producing the same cell value as the plain field of that category,
and the cell at the field's coordinate receives that value. -/
theorem claim_C6 :
    (∀ o : Options, convertField o .ptrNilV = .ok (.cString o.ifNullValue))
    ∧ (∀ (o : Options) (v : FieldValue), convertField o (.ptrV v) = convertField o v)
    ∧ defaultOptions.ifNullValue = ""
    ∧ (applyOptions [WithIfNullValue "-"]).ifNullValue = "-"
    ∧ write [some ⟨"s", .structV [⟨"P", "p", .ptrNilV⟩]⟩] [WithIfNullValue "-"] =
        .ok ⟨["s"], [("s", "A1", .cString "p"), ("s", "A2", .cString "-")]⟩
    ∧ write [some ⟨"s", .structV [⟨"P", "p", .ptrV (.intV 7)⟩, ⟨"Q", "q", .intV 7⟩]⟩] [] =
        .ok ⟨["s"], [("s", "A1", .cString "p"), ("s", "B1", .cString "q"),
                     ("s", "A2", .cInt 7), ("s", "B2", .cInt 7)]⟩ :=
  ⟨fun _ => rfl, fun _ _ => rfl, rfl, rfl, by decide, by decide⟩

/-- Claim C7, confirmed.  With both boolean texts configured (as
`WithBoolValueAs` does) the cell receives the text matching the value; with no
boolean-text override the native boolean is written unchanged; with true-text
"是" and false-text "否", true renders as "是". -/
theorem claim_C7 :
    (∀ (o : Options) (t fv : String) (b : Bool), o.trueValue = some t → o.falseValue = some fv →
        convertField o (.boolV b) = .ok (.cString (if b then t else fv)))
    ∧ (∀ (o : Options) (b : Bool), o.trueValue = none → o.falseValue = none →
        convertField o (.boolV b) = .ok (.cBool b))
    ∧ (∀ (t fv : String) (b : Bool),
        convertField (applyOptions [WithBoolValueAs t fv]) (.boolV b) =
          .ok (.cString (if b then t else fv)))
    ∧ convertField (applyOptions [WithBoolValueAs "是" "否"]) (.boolV true) = .ok (.cString "是")
    ∧ (∀ b : Bool, convertField defaultOptions (.boolV b) = .ok (.cBool b)) := by
  refine ⟨?_, ?_, ?_, by decide, ?_⟩
  · intro o t fv b ht hf
    cases b <;> simp [convertField, ht, hf]
  · intro o b ht hf
    cases b <;> simp [convertField, ht, hf]
  · intro t fv b
    cases b <;> rfl
  · intro b
    cases b <;> rfl

/-- Claim C7 witness: the configured-texts case applied at false with the
"是"/"否" configuration. -/
theorem claim_C7_witness :
    convertField (applyOptions [WithBoolValueAs "是" "否"]) (.boolV false) =
      .ok (.cString "否") :=
  claim_C7.1 (applyOptions [WithBoolValueAs "是" "否"]) "是" "否" false rfl rfl

/-- Claim C8, confirmed.  The resolver starts from the documented defaults
(time layout "2006-01-02 15:04:05", precision 2, format byte 102 = 'f', empty
null text, no boolean override, native integers, headers enabled, no
prototypes), applies overrides in the order given so the later of two
overrides of the same option wins, and forwards any precision (including 0)
and any format byte verbatim to the float formatter. -/
theorem claim_C8 :
    defaultOptions = ⟨"2006-01-02 15:04:05", 2, 102, "", [], none, none, false, false⟩
    ∧ (∀ (l : List OptionFn) (g : OptionFn), applyOptions (l ++ [g]) = g (applyOptions l))
    ∧ (∀ (l : List OptionFn) (a b : Int),
        (applyOptions (l ++ [WithFloatPrecision a, WithFloatPrecision b])).floatPrecision = b)
    ∧ (∀ (l : List OptionFn) (s1 s2 : String),
        (applyOptions (l ++ [WithTimeFormatLayout s1, WithTimeFormatLayout s2])).timeFormatLayout = s2)
    ∧ (∀ (l : List OptionFn) (v1 v2 : String),
        (applyOptions (l ++ [WithIfNullValue v1, WithIfNullValue v2])).ifNullValue = v2)
    ∧ (∀ (l : List OptionFn) (a b : Nat),
        (applyOptions (l ++ [WithFloatFmt a, WithFloatFmt b])).floatFmt = b)
    ∧ (∀ (o : Options) (p : Nat),
        convertField o (.float64V p) = .ok (.cFloatStr p o.floatFmt o.floatPrecision 64))
    ∧ (∀ (o : Options) (p : Nat),
        convertField o (.float32V p) = .ok (.cFloatStr p o.floatFmt o.floatPrecision 32))
    ∧ (∀ l : List OptionFn, (applyOptions (l ++ [WithFloatPrecision 0])).floatPrecision = 0) := by
  refine ⟨rfl, ?_, ?_, ?_, ?_, ?_, fun _ _ => rfl, fun _ _ => rfl, ?_⟩
  · intro l g
    simp [applyOptions, List.foldl_append]
  · intro l a b
    simp [applyOptions, List.foldl_append, WithFloatPrecision]
  · intro l s1 s2
    simp [applyOptions, List.foldl_append, WithTimeFormatLayout]
  · intro l v1 v2
    simp [applyOptions, List.foldl_append, WithIfNullValue]
  · intro l a b
    simp [applyOptions, List.foldl_append, WithFloatFmt]
  · intro l
    simp [applyOptions, List.foldl_append, WithFloatPrecision]

/-- Claim C9, confirmed.  A successful `write` implies every top-level record
was a struct-kind value (so the pointer-dereferencing branch of `appendRow` is
unreachable from the public entry points for top-level records), and a record
that is a non-nil pointer to a struct fails with "sheetModel must be struct". -/
theorem claim_C9 :
    (∀ (models : List (Option SheetModel)) (opts : List OptionFn) (f : XFile),
       write models opts = .ok f →
       ∀ m ∈ models, ∃ sm fields, m = some sm ∧ sm.value = GoValue.structV fields)
    ∧ write [some ⟨"s", .ptrV (.structV [⟨"A", "", .stringV "x"⟩])⟩] [] =
        .error "sheetModel must be struct" := by
  constructor
  · intro models opts f h m hm
    cases hw : writeLoop (applyOptions opts) models XFile.new (fun _ => 0) with
    | error e =>
        simp only [write, hw] at h
        exact Except.noConfusion h
    | ok p => exact writeLoop_all_structs models _ _ _ p hw m hm
  · decide

/-- Claim C9 witness: the all-structs consequence applied to a concrete
successful run. -/
theorem claim_C9_witness :
    ∃ sm fields, (some (⟨"s", .structV [⟨"A", "", .stringV "x"⟩]⟩ : SheetModel) = some sm)
      ∧ sm.value = GoValue.structV fields :=
  claim_C9.1 [some ⟨"s", .structV [⟨"A", "", .stringV "x"⟩]⟩] []
    ⟨["s"], [("s", "A1", .cString "A"), ("s", "A2", .cString "x")]⟩ (by decide)
    (some ⟨"s", .structV [⟨"A", "", .stringV "x"⟩]⟩) (by decide)

/-- Claim C10, confirmed.  `setNoDataSheetHeaders` never consults the
headless flag (its result is invariant under changing it), so with both
`WithHeadless` and `WithSheetHeaders` set, a prototype sheet that received no
data still gets its header row written at row 1. -/
theorem claim_C10 :
    (∀ (f : XFile) (o : Options) (b : Bool),
        setNoDataSheetHeaders f { o with headless := b } = setNoDataSheetHeaders f o)
    ∧ (∀ (proto : SheetModel) (fields : List GoField),
        proto.value = .structV fields → ¬ proto.sheetName = "Sheet1" → fields.length ≤ 16384 →
        write [] [WithHeadless, WithSheetHeaders [proto]] =
          .ok ⟨[proto.sheetName], noDataHeaderCells proto.sheetName 0 fields⟩)
    ∧ write [] [WithHeadless, WithSheetHeaders [⟨"p", .structV [⟨"F", "h", .stringV ""⟩]⟩]] =
        .ok ⟨["p"], [("p", "A1", .cString "h")]⟩ :=
  ⟨fun _ _ _ => rfl,
   fun proto fields hval hname hlen =>
     write_headers_only_headless proto fields hval hname hlen,
   by decide⟩

/-- Claim C10 witness: the headless no-data header branch evaluated on a
concrete prototype. -/
theorem claim_C10_witness :
    write [] [WithHeadless, WithSheetHeaders [⟨"q", .structV [⟨"G", "", .stringV ""⟩]⟩]] =
      .ok ⟨["q"], noDataHeaderCells "q" 0 [⟨"G", "", .stringV ""⟩]⟩ :=
  claim_C10.2.1 ⟨"q", .structV [⟨"G", "", .stringV ""⟩]⟩ [⟨"G", "", .stringV ""⟩]
    rfl (by decide) (by decide)

end Excelorm
